import Mathlib

/-!
Verification of the Swachh-Netra contractor vehicle-resolution lookup and of
the UserManagement screen logic, against the repository's specification.

Part 1 embeds the VehicleResolver (the resolver itself is not present in the
repository sources; it is modelled from the specification, §4.1).
Part 2 embeds `fetchUsers` statistics and `toggleUserStatus` from
`app/screens/admin/UserManagement.tsx`.
-/

namespace SwachhNetra

/-- Modelled from the spec: an assignment record of the `vehicleAssignments`
collection (§3): `vehicleId`, `assignedTo` (contractor id, the join key),
`assignmentType` (tag, only "admin_to_contractor" is relevant), `status`
("active"/"inactive"), plus provenance metadata `assignedBy`/`assignedAt`
that the resolution logic does not use. -/
structure Assignment where
  vehicleId : String
  assignedTo : String
  assignedBy : String
  assignmentType : String
  status : String
  assignedAt : String
deriving DecidableEq, Repr

/-- Modelled from the spec: a vehicle record of the `vehicles` collection
(§3): primary key `vehicleId`, descriptive fields, a status, and the
legacy direct-assignment fallback field `assignedToContractor` which, when
present, names a contractor directly, bypassing the assignment table. -/
structure Vehicle where
  vehicleId : String
  vehicleNumber : String
  vehicleName : String
  status : String
  assignedToContractor : Option String
deriving DecidableEq, Repr

/-- Modelled from the spec: the single failure kind of the resolver (§7):
the underlying store could not be queried. -/
inductive LookupError where
  | lookupFailure
deriving DecidableEq, Repr

/-- Modelled from the spec: the document store backing the resolver (§6),
holding the assignment and vehicle collections, every other collection of
the database (never touched by the resolver), and a flag saying whether the store
is currently unreachable (every query is then rejected). -/
structure Store where
  assignments : List Assignment
  vehicles : List Vehicle
  otherCollections : List (String × List String)
  unreachable : Bool
deriving DecidableEq, Repr

/-- Modelled from the spec: filtered query over the assignment collection
(equality predicates on named fields, §6); rejected when the store is
unreachable, and the store state is handed back to the caller unchanged. -/
def queryAssignments (s : Store) (p : Assignment → Bool) :
    Except LookupError (List Assignment) × Store :=
  if s.unreachable then (Except.error LookupError.lookupFailure, s)
  else (Except.ok (s.assignments.filter p), s)

/-- Modelled from the spec: filtered query over the vehicle collection (§6). -/
def queryVehicles (s : Store) (p : Vehicle → Bool) :
    Except LookupError (List Vehicle) × Store :=
  if s.unreachable then (Except.error LookupError.lookupFailure, s)
  else (Except.ok (s.vehicles.filter p), s)

/-- Modelled from the spec: get-record-by-id over the vehicle collection
(§6); a missing record is a successful `none`, not an error. -/
def getVehicleById (s : Store) (vid : String) :
    Except LookupError (Option Vehicle) × Store :=
  if s.unreachable then (Except.error LookupError.lookupFailure, s)
  else (Except.ok (s.vehicles.find? (fun v => v.vehicleId == vid)), s)

/-- Modelled from the spec: the step-1 filter (§4.1): records whose
`assignedTo` equals the contractor id, whose `assignmentType` is
"admin_to_contractor", and whose `status` is "active". -/
def matchFilter (cid : String) (a : Assignment) : Bool :=
  a.assignedTo == cid && a.assignmentType == "admin_to_contractor"
    && a.status == "active"

/-- Modelled from the spec: duplicate collapse of the extracted `vehicleId`
values (§4.1 step 2): each id is kept once. -/
def distinctIds : List String → List String
  | [] => []
  | x :: xs => if x ∈ xs then distinctIds xs else x :: distinctIds xs

/-- Modelled from the spec: the per-id vehicle fetch loop of step 2 (§4.1):
fetch each referenced vehicle by id; a dangling reference (no record) is
skipped silently and contributes nothing to the result. -/
def fetchVehicles (s : Store) (ids : List String) :
    Except LookupError (List Vehicle) × Store :=
  match ids with
  | [] => (Except.ok [], s)
  | vid :: rest =>
    let r1 := getVehicleById s vid
    match r1.1 with
    | Except.error e => (Except.error e, r1.2)
    | Except.ok ov =>
      let r2 := fetchVehicles r1.2 rest
      match r2.1 with
      | Except.error e => (Except.error e, r2.2)
      | Except.ok vs =>
        match ov with
        | some v => (Except.ok (v :: vs), r2.2)
        | none => (Except.ok vs, r2.2)

/-- Modelled from the spec: `resolveVehiclesForContractor` (§4.1), with the
post-call store state made explicit. Step 1 queries the assignment
collection with the three-way filter; if non-empty, step 2 fetches the
distinct referenced vehicles; otherwise step 3 queries the vehicle
collection on the direct-assignment field. -/
def resolveVehiclesForContractorRun (s : Store) (cid : String) :
    Except LookupError (List Vehicle) × Store :=
  let r1 := queryAssignments s (matchFilter cid)
  match r1.1 with
  | Except.error e => (Except.error e, r1.2)
  | Except.ok asgs =>
    if asgs.isEmpty then
      let r2 := queryVehicles r1.2 (fun v => v.assignedToContractor == some cid)
      match r2.1 with
      | Except.error e => (Except.error e, r2.2)
      | Except.ok vs => (Except.ok vs, r2.2)
    else
      fetchVehicles r1.2 (distinctIds (asgs.map Assignment.vehicleId))

/-- Modelled from the spec: the caller-facing contract (§4.1): contractor id
in, vehicle list out, or `LookupFailure`. -/
def resolveVehiclesForContractor (s : Store) (cid : String) :
    Except LookupError (List Vehicle) :=
  (resolveVehiclesForContractorRun s cid).1

/-- The step-1 result: assignment records matching the three-way filter. -/
def matchingAssignments (s : Store) (cid : String) : List Assignment :=
  s.assignments.filter (matchFilter cid)

/-- The step-2 result: distinct referenced vehicles that exist, in the
order produced by the duplicate collapse; dangling references are gaps. -/
def assignmentVehicles (s : Store) (cid : String) : List Vehicle :=
  (distinctIds ((matchingAssignments s cid).map Assignment.vehicleId)).filterMap
    (fun vid => s.vehicles.find? (fun v => v.vehicleId == vid))

/-- The step-3 result: vehicles carrying the direct-assignment field. -/
def directVehicles (s : Store) (cid : String) : List Vehicle :=
  s.vehicles.filter (fun v => v.assignedToContractor == some cid)

theorem mem_distinctIds {a : String} {l : List String} :
    a ∈ distinctIds l ↔ a ∈ l := by
  induction l with
  | nil => simp [distinctIds]
  | cons x xs ih =>
    by_cases h : x ∈ xs
    · simp only [distinctIds, if_pos h, ih, List.mem_cons]
      constructor
      · exact Or.inr
      · rintro (rfl | hx)
        · exact h
        · exact hx
    · simp [distinctIds, if_neg h, ih]

theorem distinctIds_nodup (l : List String) : (distinctIds l).Nodup := by
  induction l with
  | nil => exact List.nodup_nil
  | cons x xs ih =>
    by_cases h : x ∈ xs
    · simpa [distinctIds, h] using ih
    · have hx : x ∉ distinctIds xs := fun hmem => h (mem_distinctIds.mp hmem)
      rw [distinctIds, if_neg h, List.nodup_cons]
      exact ⟨hx, ih⟩

theorem fetchVehicles_ok (s : Store) (h : s.unreachable = false) :
    ∀ ids : List String,
      fetchVehicles s ids =
        (Except.ok (ids.filterMap
          (fun vid => s.vehicles.find? (fun v => v.vehicleId == vid))), s) := by
  intro ids
  induction ids with
  | nil => rfl
  | cons vid rest ih =>
    simp only [fetchVehicles, getVehicleById, h, Bool.false_eq_true, if_false,
      List.filterMap_cons, ih]
    cases hfind : s.vehicles.find? (fun v => v.vehicleId == vid) <;> simp

theorem fetchVehicles_fail (s : Store) (h : s.unreachable = true)
    (vid : String) (rest : List String) :
    fetchVehicles s (vid :: rest) = (Except.error LookupError.lookupFailure, s) := by
  simp [fetchVehicles, getVehicleById, h]

theorem resolveRun_ok (s : Store) (cid : String) (h : s.unreachable = false) :
    resolveVehiclesForContractorRun s cid =
      (Except.ok (if matchingAssignments s cid = [] then directVehicles s cid
                  else assignmentVehicles s cid), s) := by
  have hq : queryAssignments s (matchFilter cid) =
      (Except.ok (s.assignments.filter (matchFilter cid)), s) := by
    simp [queryAssignments, h]
  cases he : (s.assignments.filter (matchFilter cid)).isEmpty with
  | true =>
    have hm : matchingAssignments s cid = [] := by
      simpa [matchingAssignments, List.isEmpty_iff] using he
    simp [resolveVehiclesForContractorRun, hq, he, queryVehicles, h, hm,
      directVehicles]
  | false =>
    have hm : matchingAssignments s cid ≠ [] := by
      intro hnil
      simp only [matchingAssignments] at hnil
      rw [← List.isEmpty_iff] at hnil
      exact Bool.false_ne_true (he ▸ hnil)
    simp only [resolveVehiclesForContractorRun, hq, he, Bool.false_eq_true,
      if_false, if_neg hm]
    rw [fetchVehicles_ok s h]
    rfl

theorem resolveRun_fail (s : Store) (cid : String) (h : s.unreachable = true) :
    resolveVehiclesForContractorRun s cid =
      (Except.error LookupError.lookupFailure, s) := by
  simp [resolveVehiclesForContractorRun, queryAssignments, h]

theorem resolveRun_state (s : Store) (cid : String) :
    (resolveVehiclesForContractorRun s cid).2 = s := by
  cases h : s.unreachable
  · rw [resolveRun_ok s cid h]
  · rw [resolveRun_fail s cid h]

theorem mem_assignmentVehicles {s : Store} {cid : String} {v : Vehicle}
    (hv : v ∈ assignmentVehicles s cid) :
    s.vehicles.find? (fun w => w.vehicleId == v.vehicleId) = some v
    ∧ ∃ a ∈ matchingAssignments s cid, a.vehicleId = v.vehicleId := by
  rcases List.mem_filterMap.mp hv with ⟨vid, hvid, hfind⟩
  have hid : v.vehicleId = vid := by
    have hp := List.find?_some hfind
    simpa using hp
  have hmem : vid ∈ (matchingAssignments s cid).map Assignment.vehicleId :=
    mem_distinctIds.mp hvid
  rcases List.mem_map.mp hmem with ⟨a, ha, hav⟩
  subst hid
  exact ⟨hfind, a, ha, hav.symm ▸ rfl⟩

theorem resolve_ok_eq (s : Store) (cid : String) (h : s.unreachable = false) :
    resolveVehiclesForContractor s cid =
      Except.ok (if matchingAssignments s cid = [] then directVehicles s cid
                 else assignmentVehicles s cid) := by
  show (resolveVehiclesForContractorRun s cid).1 = _
  rw [resolveRun_ok s cid h]

theorem resolve_fail_eq (s : Store) (cid : String) (h : s.unreachable = true) :
    resolveVehiclesForContractor s cid =
      Except.error LookupError.lookupFailure := by
  show (resolveVehiclesForContractorRun s cid).1 = _
  rw [resolveRun_fail s cid h]

theorem map_vehicleId_filterMap_find (vehicles : List Vehicle) :
    ∀ ids : List String,
      ((ids.filterMap
          (fun vid => vehicles.find? (fun v => v.vehicleId == vid))).map
            Vehicle.vehicleId)
        = ids.filter (fun vid =>
            (vehicles.find? (fun v => v.vehicleId == vid)).isSome) := by
  intro ids
  induction ids with
  | nil => rfl
  | cons vid rest ih =>
    simp only [List.filterMap_cons, List.filter_cons]
    cases hfind : vehicles.find? (fun v => v.vehicleId == vid) with
    | none => simpa [hfind] using ih
    | some v =>
      have hv : v.vehicleId = vid := by simpa using List.find?_some hfind
      simp [hfind, hv, ih]

theorem assignmentVehicles_ids_nodup (s : Store) (cid : String) :
    ((assignmentVehicles s cid).map Vehicle.vehicleId).Nodup := by
  rw [assignmentVehicles, map_vehicleId_filterMap_find]
  exact List.Nodup.filter _ (distinctIds_nodup _)

/-- Example data mirroring the spec scenarios (§8): vehicle `V1`, assigned
through the assignment table. -/
def vehicleV1 : Vehicle :=
  { vehicleId := "V1", vehicleNumber := "MH12AB1234",
    vehicleName := "Garbage Truck 1", status := "active",
    assignedToContractor := none }

/-- Example vehicle `V2`, carrying the direct-assignment field for `C1`. -/
def vehicleV2 : Vehicle :=
  { vehicleId := "V2", vehicleNumber := "MH12AB5678",
    vehicleName := "Garbage Truck 2", status := "active",
    assignedToContractor := some "C1" }

/-- Example active admin-to-contractor assignment of `V1` to `C1`. -/
def assignmentA1 : Assignment :=
  { vehicleId := "V1", assignedTo := "C1", assignedBy := "admin",
    assignmentType := "admin_to_contractor", status := "active",
    assignedAt := "2024-01-01T00:00:00.000Z" }

/-- A second active assignment referencing the same vehicle `V1`. -/
def assignmentA2 : Assignment :=
  { assignmentA1 with assignedBy := "admin2" }

/-- An assignment referencing vehicle `V9`, which does not exist. -/
def assignmentA9 : Assignment :=
  { assignmentA1 with vehicleId := "V9" }

/-- Store with one active assignment for `C1` and a direct-field vehicle. -/
def storeA : Store :=
  { assignments := [assignmentA1], vehicles := [vehicleV1, vehicleV2],
    otherCollections := [("users", ["u1"])], unreachable := false }

/-- Store whose only assignment for `C1` dangles, while `V2` carries the
direct-assignment field. -/
def storeB : Store :=
  { assignments := [assignmentA9], vehicles := [vehicleV2],
    otherCollections := [], unreachable := false }

/-- Store where two active assignments reference the same vehicle `V1`. -/
def storeC : Store :=
  { assignments := [assignmentA1, assignmentA2], vehicles := [vehicleV1],
    otherCollections := [], unreachable := false }

/-- Store with no assignments and no direct-assignment field. -/
def storeEmpty : Store :=
  { assignments := [], vehicles := [vehicleV1], otherCollections := [],
    unreachable := false }

/-- Unreachable store: every query is rejected. -/
def storeFail : Store :=
  { assignments := [assignmentA1], vehicles := [vehicleV1],
    otherCollections := [], unreachable := true }

/-- C1: the resolver is a strict priority-fallback, never a union: when at
least one active admin-to-contractor assignment exists for the contractor,
the result is built solely from those assignments (every returned vehicle is
referenced by one of them, so direct-field vehicles are ignored), and the
direct-field query of step 3 runs only when step 1 returned zero records. -/
theorem resolve_priority_fallback (s : Store) (cid : String)
    (hok : s.unreachable = false) :
    (matchingAssignments s cid ≠ [] →
      resolveVehiclesForContractor s cid
          = Except.ok (assignmentVehicles s cid)
      ∧ ∀ v ∈ assignmentVehicles s cid,
          ∃ a ∈ matchingAssignments s cid, a.vehicleId = v.vehicleId)
    ∧ (matchingAssignments s cid = [] →
      resolveVehiclesForContractor s cid
          = Except.ok (directVehicles s cid)) := by
  constructor
  · intro hne
    refine ⟨?_, fun v hv => (mem_assignmentVehicles hv).2⟩
    rw [resolve_ok_eq s cid hok, if_neg hne]
  · intro hm
    rw [resolve_ok_eq s cid hok, if_pos hm]

/-- Witness for C1: in `storeA`, contractor `C1` has one active assignment
(to `V1`) while `V2` carries the direct field; the result is `[V1]` alone. -/
theorem resolve_priority_fallback_witness :
    matchingAssignments storeA "C1" ≠ []
    ∧ resolveVehiclesForContractor storeA "C1"
        = Except.ok (assignmentVehicles storeA "C1")
    ∧ assignmentVehicles storeA "C1" = [vehicleV1] := by
  refine ⟨by decide, ?_, by decide⟩
  exact ((resolve_priority_fallback storeA "C1" rfl).1 (by decide)).1

/-- C2: the assignment-table query selects exactly the records whose
`assignedTo` equals the contractor id, whose `assignmentType` is
"admin_to_contractor", and whose `status` is "active"; everything else is
excluded. -/
theorem matching_filter_exact (s : Store) (cid : String) (a : Assignment) :
    a ∈ matchingAssignments s cid ↔
      a ∈ s.assignments ∧ a.assignedTo = cid
      ∧ a.assignmentType = "admin_to_contractor" ∧ a.status = "active" := by
  simp [matchingAssignments, matchFilter, List.mem_filter, and_assoc]

/-- C3: in the assignment branch, duplicate `vehicleId` values are collapsed
before fetching: the returned list carries pairwise distinct vehicle ids,
and every matching assignment whose vehicle exists is represented. -/
theorem assignment_branch_distinct (s : Store) (cid : String)
    (hok : s.unreachable = false) (hne : matchingAssignments s cid ≠ []) :
    resolveVehiclesForContractor s cid = Except.ok (assignmentVehicles s cid)
    ∧ ((assignmentVehicles s cid).map Vehicle.vehicleId).Nodup
    ∧ ∀ a ∈ matchingAssignments s cid, ∀ v,
        s.vehicles.find? (fun w => w.vehicleId == a.vehicleId) = some v →
        v ∈ assignmentVehicles s cid := by
  refine ⟨?_, assignmentVehicles_ids_nodup s cid, ?_⟩
  · rw [resolve_ok_eq s cid hok, if_neg hne]
  · intro a ha v hfind
    exact List.mem_filterMap.mpr
      ⟨a.vehicleId, mem_distinctIds.mpr (List.mem_map.mpr ⟨a, ha, rfl⟩), hfind⟩

/-- Witness for C3: in `storeC` two active assignments reference `V1`; the
result is `[V1]`, the vehicle appearing exactly once. -/
theorem assignment_branch_distinct_witness :
    matchingAssignments storeC "C1" ≠ []
    ∧ resolveVehiclesForContractor storeC "C1"
        = Except.ok (assignmentVehicles storeC "C1")
    ∧ ((assignmentVehicles storeC "C1").map Vehicle.vehicleId).Nodup
    ∧ assignmentVehicles storeC "C1" = [vehicleV1] := by
  have h := assignment_branch_distinct storeC "C1" rfl (by decide)
  exact ⟨by decide, h.1, h.2.1, by decide⟩

/-- C4: a dangling reference is skipped silently, never raised, and does not
trigger the fallback: an assignment whose vehicle is missing contributes
nothing, and when every referenced vehicle is missing the call succeeds with
the empty list (step 3 is not consulted, because step 1 was non-empty). -/
theorem dangling_reference_skipped (s : Store) (cid : String)
    (hok : s.unreachable = false) (hne : matchingAssignments s cid ≠ []) :
    (∀ a ∈ matchingAssignments s cid,
        s.vehicles.find? (fun w => w.vehicleId == a.vehicleId) = none →
        ∀ v ∈ assignmentVehicles s cid, v.vehicleId ≠ a.vehicleId)
    ∧ ((∀ a ∈ matchingAssignments s cid,
          s.vehicles.find? (fun w => w.vehicleId == a.vehicleId) = none) →
        resolveVehiclesForContractor s cid = Except.ok []) := by
  constructor
  · intro a ha hnone v hv heq
    have h1 := (mem_assignmentVehicles hv).1
    rw [heq, hnone] at h1
    cases h1
  · intro hall
    have hempty : assignmentVehicles s cid = [] := by
      rw [assignmentVehicles]
      apply List.filterMap_eq_nil_iff.mpr
      intro vid hvid
      rcases List.mem_map.mp (mem_distinctIds.mp hvid) with ⟨a, ha, rfl⟩
      exact hall a ha
    rw [resolve_ok_eq s cid hok, if_neg hne, hempty]

/-- Witness for C4: in `storeB` the only assignment references the missing
`V9`, and `V2` carries the direct field; the call succeeds with `[]`. -/
theorem dangling_reference_skipped_witness :
    matchingAssignments storeB "C1" ≠ []
    ∧ directVehicles storeB "C1" ≠ []
    ∧ resolveVehiclesForContractor storeB "C1" = Except.ok [] := by
  refine ⟨by decide, by decide, ?_⟩
  exact (dangling_reference_skipped storeB "C1" rfl (by decide)).2 (by decide)

/-- C5: the resolver fails with `LookupFailure` exactly when the store
cannot be queried, and on a reachable store it always succeeds with some
list, so failure is distinct from a successful empty result. -/
theorem failure_iff_store_unreachable (s : Store) (cid : String) :
    (resolveVehiclesForContractor s cid
        = Except.error LookupError.lookupFailure
      ↔ s.unreachable = true)
    ∧ (s.unreachable = false →
        ∃ l, resolveVehiclesForContractor s cid = Except.ok l) := by
  cases h : s.unreachable with
  | false =>
    refine ⟨⟨fun hc => ?_, fun ht => ?_⟩, fun _ => ?_⟩
    · rw [resolve_ok_eq s cid h] at hc
      cases hc
    · exact Bool.noConfusion ht
    · exact ⟨_, resolve_ok_eq s cid h⟩
  | true =>
    exact ⟨⟨fun _ => rfl, fun _ => resolve_fail_eq s cid h⟩,
      fun hf => Bool.noConfusion hf⟩

/-- Witness for C5: the unreachable `storeFail` yields `LookupFailure`,
while the reachable `storeA` yields a successful list. -/
theorem failure_iff_store_unreachable_witness :
    resolveVehiclesForContractor storeFail "C1"
      = Except.error LookupError.lookupFailure
    ∧ ∃ l, resolveVehiclesForContractor storeA "C1" = Except.ok l :=
  ⟨(failure_iff_store_unreachable storeFail "C1").1.mpr rfl,
    (failure_iff_store_unreachable storeA "C1").2 rfl⟩

/-- C6: a contractor with zero active admin-to-contractor assignments and
zero direct-field vehicles gets a successful empty list, not an error. -/
theorem empty_sources_empty_result (s : Store) (cid : String)
    (hok : s.unreachable = false) (hA : matchingAssignments s cid = [])
    (hD : directVehicles s cid = []) :
    resolveVehiclesForContractor s cid = Except.ok [] := by
  rw [resolve_ok_eq s cid hok, if_pos hA, hD]

/-- Witness for C6: in `storeEmpty`, contractor `C9` has neither source. -/
theorem empty_sources_empty_result_witness :
    resolveVehiclesForContractor storeEmpty "C9" = Except.ok [] :=
  empty_sources_empty_result storeEmpty "C9" rfl (by decide) (by decide)

/-- C7: the resolver is idempotent over unchanged backing data: a second
call on the store state left by the first returns the identical result. -/
theorem resolve_idempotent (s : Store) (cid : String) :
    (resolveVehiclesForContractorRun
        ((resolveVehiclesForContractorRun s cid).2) cid).1
      = (resolveVehiclesForContractorRun s cid).1 := by
  rw [resolveRun_state s cid]

/-- C8: the resolver is read-only: after the call, whether it succeeded or
failed, every collection of the store (assignments, vehicles, and all
others) equals its state before the call. -/
theorem resolve_read_only (s : Store) (cid : String) :
    (resolveVehiclesForContractorRun s cid).2.assignments = s.assignments
    ∧ (resolveVehiclesForContractorRun s cid).2.vehicles = s.vehicles
    ∧ (resolveVehiclesForContractorRun s cid).2.otherCollections
        = s.otherCollections := by
  rw [resolveRun_state s cid]
  exact ⟨rfl, rfl, rfl⟩

/-- A user record as listed by `fetchUsers`
(`UserManagement.tsx`, interface `User`). -/
structure User where
  id : String
  fullName : String
  email : String
  phone : String
  role : String
  isActive : Bool
  createdAt : String
deriving DecidableEq, Repr

/-- The user-statistics record of the `UserManagement` screen
(`UserManagement.tsx`, state `userStats`). -/
structure UserStats where
  totalUsers : Nat
  activeUsers : Nat
  drivers : Nat
  contractors : Nat
  swachhHR : Nat
  admins : Nat
  pendingApprovals : Nat
deriving DecidableEq, Repr

/-- The statistics computation of `fetchUsers`
(`UserManagement.tsx` lines 108-119): length of the fetched list, and
filters of that same list by `isActive` and by the four role values;
`pendingApprovals` is left 0, updated later by `fetchApprovalRequests`. -/
def computeStats (usersList : List User) : UserStats :=
  { totalUsers := usersList.length
    activeUsers := (usersList.filter (fun u => u.isActive)).length
    drivers := (usersList.filter (fun u => u.role == "driver")).length
    contractors :=
      (usersList.filter (fun u => u.role == "transport_contractor")).length
    swachhHR := (usersList.filter (fun u => u.role == "swachh_hr")).length
    admins := (usersList.filter (fun u => u.role == "admin")).length
    pendingApprovals := 0 }

/-- A stored document of the `users` collection, as touched by
`toggleUserStatus`: the listed profile fields plus the two written fields
`isActive` and `updatedAt` (absent until first written). -/
structure UserDoc where
  fullName : String
  email : String
  phone : String
  role : String
  createdAt : String
  isActive : Bool
  updatedAt : Option String
deriving DecidableEq, Repr

/-- `toggleUserStatus` (`UserManagement.tsx` lines 182-194): an
`updateDoc` on the document whose id is the passed user's id, merging
exactly two fields — `isActive` becomes the negation of the passed user's
`isActive`, and `updatedAt` is set to the current timestamp. -/
def toggleUserStatus (store : List (String × UserDoc)) (user : User)
    (now : String) : List (String × UserDoc) :=
  store.map (fun p =>
    if p.1 == user.id then
      (p.1, { p.2 with isActive := !user.isActive, updatedAt := some now })
    else p)

theorem role_filters_length_le (l : List User) :
    (l.filter (fun u => u.role == "driver")).length
      + (l.filter (fun u => u.role == "transport_contractor")).length
      + (l.filter (fun u => u.role == "swachh_hr")).length
      + (l.filter (fun u => u.role == "admin")).length ≤ l.length := by
  induction l with
  | nil => simp
  | cons u rest ih =>
    simp only [List.filter_cons, List.length_cons]
    by_cases h1 : u.role = "driver" <;> by_cases h2 : u.role = "transport_contractor" <;>
      by_cases h3 : u.role = "swachh_hr" <;> by_cases h4 : u.role = "admin" <;>
      simp_all <;> omega

/-- C9: for every list of user records, the statistics computed by
`fetchUsers` satisfy `totalUsers` equals the list length,
`activeUsers ≤ totalUsers`, and the four role counts sum to at most
`totalUsers`, the role values being mutually exclusive. -/
theorem fetchUsers_stats_bounds (usersList : List User) :
    (computeStats usersList).totalUsers = usersList.length
    ∧ (computeStats usersList).activeUsers ≤ (computeStats usersList).totalUsers
    ∧ (computeStats usersList).drivers + (computeStats usersList).contractors
        + (computeStats usersList).swachhHR + (computeStats usersList).admins
      ≤ (computeStats usersList).totalUsers :=
  ⟨rfl, List.length_filter_le _ _, role_filters_length_le usersList⟩

/-- C10: `toggleUserStatus` writes exactly two fields of the targeted user
document — `isActive` becomes the negation of the passed user's `isActive`
and `updatedAt` is set — while every other field of that document, and
every non-targeted document, is unchanged. Stated entrywise over the
collection via `Forall₂`. -/
theorem toggleUserStatus_frame (store : List (String × UserDoc))
    (user : User) (now : String) :
    List.Forall₂ (fun p q : String × UserDoc =>
        q.1 = p.1
        ∧ (p.1 = user.id →
            q.2.isActive = !user.isActive ∧ q.2.updatedAt = some now
            ∧ q.2.fullName = p.2.fullName ∧ q.2.email = p.2.email
            ∧ q.2.phone = p.2.phone ∧ q.2.role = p.2.role
            ∧ q.2.createdAt = p.2.createdAt)
        ∧ (p.1 ≠ user.id → q = p))
      store (toggleUserStatus store user now) := by
  induction store with
  | nil => exact List.Forall₂.nil
  | cons p rest ih =>
    simp only [toggleUserStatus, List.map_cons] at ih ⊢
    refine List.Forall₂.cons ?_ ih
    by_cases h : p.1 = user.id
    · simp [h]
    · simp [h]

end SwachhNetra
